import Mathlib

/-!
Verification of the obsidian-frontmatter-decorator plugin (`main.ts`)
against its natural-language specification.

The TypeScript source is shallowly embedded:

* frontmatter values become the inductive `FmValue` (JavaScript truthiness
  is made explicit by `FmValue.truthy`);
* the vault and the host metadata index become the `Host` structure
  (association lists keyed by file path);
* the memoizing `FileStyleCache` becomes an association list threaded
  explicitly through `CacheState.getStyle`;
* a DOM element becomes the `Elem` structure, recording exactly the pieces
  of element state the plugin reads and writes: the inline color, the
  `data-frontmatter-color` attribute, the `data-frontmatter-styled` marker
  used by the observers, the list of `.frontmatter-icon` child containers
  (in document order, each holding its rendered content), and membership
  in the applicator's `styledElements` weak set;
* icon rendering becomes the `RenderCall` datatype: which backend was
  invoked and with which normalized identifier.

External host collaborators (vault lookups, metadata index, the link
resolver `getFirstLinkpathDest`, the optional Notebook Navigator icon
service) are modelled as explicit parameters, matching the interfaces the
specification lists as out of scope.
-/

namespace FrontmatterDecorator

/-- A frontmatter value as delivered by the host metadata index.
JavaScript `null`/`undefined` are represented by `Option` at use sites. -/
inductive FmValue where
  | str : String → FmValue
  | boolean : Bool → FmValue
  | num : Int → FmValue
deriving DecidableEq, Repr

/-- JavaScript truthiness of a frontmatter value. -/
def FmValue.truthy : FmValue → Bool
  | .str s => s ≠ ""
  | .boolean b => b
  | .num n => n ≠ 0

/-- JavaScript string coercion of a frontmatter value (used when the value
is written into a DOM string slot such as `element.style.color`). -/
def FmValue.toStr : FmValue → String
  | .str s => s
  | .boolean b => if b then "true" else "false"
  | .num n => toString n

/-- Truthiness of a possibly-null value (`if (style.color)` in the source). -/
def optTruthy : Option FmValue → Bool
  | some v => v.truthy
  | none => false

/-- String coercion of a possibly-null value; only consulted on truthy values. -/
def optToStr : Option FmValue → String
  | some v => v.toStr
  | none => ""

/-- `interface FileStyle { color: string | null; icon: string | null }`
(`main.ts` lines 177–180).  The cache can in fact store any frontmatter
value shape, so the fields carry `Option FmValue`. -/
structure FileStyle where
  color : Option FmValue
  icon : Option FmValue
deriving DecidableEq, Repr

/-- `interface FrontmatterDecoratorSettings` (`main.ts` lines 149–159):
two field names and seven boolean surface toggles. -/
structure FrontmatterDecoratorSettings where
  colorField : String
  iconField : String
  enableFileExplorer : Bool
  enableTabHeader : Bool
  enableQuickSwitcher : Bool
  enableSuggester : Bool
  enableBacklinks : Bool
  enableBases : Bool
  enableEditorLinks : Bool
deriving DecidableEq, Repr

/-- `DEFAULT_SETTINGS` (`main.ts` lines 161–171). -/
def DEFAULT_SETTINGS : FrontmatterDecoratorSettings :=
  ⟨"color", "icon", true, true, true, true, true, true, true⟩

/-- A `TFile` handle from the host vault: path, base name, extension. -/
structure VaultFile where
  path : String
  basename : String
  extension : String
deriving DecidableEq, Repr

/-- A `TAbstractFile`: either a `TFile` or a folder (the `instanceof TFile`
checks in the source distinguish the two). -/
inductive AbstractFile where
  | tfile : VaultFile → AbstractFile
  | tfolder : String → AbstractFile
deriving DecidableEq, Repr

/-- The path of an abstract file. -/
def AbstractFile.path : AbstractFile → String
  | .tfile f => f.path
  | .tfolder p => p

/-- A frontmatter mapping: field name to value; an entry holding `none`
models an explicit YAML null. -/
abbrev Frontmatter := List (String × Option FmValue)

/-- The host collaborators consumed by the plugin: the virtual file tree
(`vault.getAbstractFileByPath`, `vault.getMarkdownFiles`) and the metadata
index (`metadataCache.getFileCache(file)?.frontmatter`), both modelled as
association lists keyed by path. -/
structure Host where
  abstractFiles : List AbstractFile
  frontmatter : List (String × Frontmatter)
deriving Repr

/-- `vault.getAbstractFileByPath(path)`. -/
def getAbstractFileByPath (h : Host) (p : String) : Option AbstractFile :=
  h.abstractFiles.find? (fun f => f.path = p)

/-- `vault.getMarkdownFiles()`: every `TFile` whose extension is `md`. -/
def getMarkdownFiles (h : Host) : List VaultFile :=
  h.abstractFiles.filterMap (fun f =>
    match f with
    | .tfile file => if file.extension = "md" then some file else none
    | .tfolder _ => none)

/-- `frontmatter[field] ?? null`: nullish coalescing — an absent field and a
field holding null both give null; every other value passes through. -/
def lookupFm (fm : Frontmatter) (field : String) : Option FmValue :=
  match fm.lookup field with
  | some v => v
  | none => none

/-- `FileStyleCache.computeStyle` (`main.ts` lines 209–229): resolve the
path; unless it is a markdown `TFile` return `{null, null}`; otherwise
project the two configured field names out of the frontmatter mapping,
nullish-coalescing each to null. -/
def computeStyle (h : Host) (s : FrontmatterDecoratorSettings)
    (filePath : String) : FileStyle :=
  match getAbstractFileByPath h filePath with
  | some (.tfile file) =>
    if file.extension ≠ "md" then ⟨none, none⟩
    else
      match h.frontmatter.lookup filePath with
      | none => ⟨none, none⟩
      | some fm => ⟨lookupFm fm s.colorField, lookupFm fm s.iconField⟩
  | _ => ⟨none, none⟩

/-- The memoization map of `FileStyleCache`. -/
abbrev CacheState := List (String × FileStyle)

/-- `FileStyleCache.getStyle` (`main.ts` lines 196–204): answer from the
map when present, otherwise compute, memoize and answer. -/
def CacheState.getStyle (c : CacheState) (h : Host)
    (s : FrontmatterDecoratorSettings) (p : String) : FileStyle × CacheState :=
  match c.lookup p with
  | some st => (st, c)
  | none => (computeStyle h s p, (p, computeStyle h s p) :: c)

/-- `FileStyleCache.invalidate` (`main.ts` lines 234–236): drop the entry. -/
def CacheState.invalidate (c : CacheState) (p : String) : CacheState :=
  c.filter (fun e => e.1 ≠ p)

/-- `FileStyleCache.clear` (`main.ts` lines 241–243). -/
def CacheState.clear (_ : CacheState) : CacheState := []

/-- Embedding of JavaScript `s.startsWith(p)`, at the character-list level
so that proofs can evaluate it. -/
def strStartsWith (s p : String) : Bool := p.data.isPrefixOf s.data

/-- Embedding of JavaScript `s.slice(n)`: drop the first `n` characters. -/
def strDrop (s : String) (n : Nat) : String := ⟨s.data.drop n⟩

/-- Embedding of JavaScript `s.endsWith(p)`. -/
def strEndsWith (s p : String) : Bool := p.data.isSuffixOf s.data

/-- Drop the last `n` characters (JavaScript `s.replace(/suffix$/, "")`
once the suffix is known present). -/
def strDropRight (s : String) (n : Nat) : String :=
  ⟨s.data.take (s.data.length - n)⟩

/-- Embedding of JavaScript `s.includes(c)` for a single character. -/
def strContainsChar (s : String) (c : Char) : Bool := s.data.contains c

/-- Embedding of JavaScript `s.split(c)[0]` for a one-character separator:
everything before the first occurrence of `c`. -/
def strTakeUntil (s : String) (c : Char) : String :=
  ⟨s.data.takeWhile (fun d => d ≠ c)⟩

/-- Embedding of JavaScript `s.trim()`. -/
def strTrim (s : String) : String :=
  ⟨((s.data.dropWhile Char.isWhitespace).reverse.dropWhile
      Char.isWhitespace).reverse⟩

/-- `StyleApplicator.normalizeIconIdForNN` (`main.ts` lines 385–401): strip
a redundant repeated namespace marker for Phosphor and Simple Icons
identifiers; everything else passes through. -/
def normalizeIconIdForNN (iconId : String) : String :=
  if iconId = "" then iconId
  else if strStartsWith iconId "phosphor:ph-" then
    "phosphor:" ++ strDrop iconId 12
  else if strStartsWith iconId "simple-icons:si-" then
    "simple-icons:" ++ strDrop iconId 16
  else iconId

/-- `StyleApplicator.normalizeLucideIcon` (`main.ts` lines 406–421): keep a
`lucide-` identifier, reject a namespaced identifier, prepend `lucide-`
otherwise. -/
def normalizeLucideIcon (iconId : String) : Option String :=
  if iconId = "" then none
  else if strStartsWith iconId "lucide-" then some iconId
  else if strContainsChar iconId ':' then none
  else some ("lucide-" ++ iconId)

/-- A render call issued into the icon container: the built-in renderer
(`setIcon`) with a normalized Lucide name, or the Notebook Navigator icon
service with a normalized namespaced identifier. -/
inductive RenderCall where
  | builtin : String → RenderCall
  | nn : String → RenderCall
deriving DecidableEq, Repr

/-- The icon-rendering environment: whether the Notebook Navigator service
instance is available to the applicator, and for which normalized
identifiers its `renderIcon` leaves content in the container (a throw or
an empty render both count as failure, `main.ts` lines 357–379). -/
structure IconEnv where
  nnAvailable : Bool
  nnRenderOk : String → Bool

/-- Net content rendered into the icon container by `applyIcon`'s two-tier
resolution (`main.ts` lines 338–351): the Notebook Navigator service when
available and successful, else the built-in renderer on a normalized
Lucide name, else nothing. -/
def iconRender (env : IconEnv) (iconId : String) : Option RenderCall :=
  if env.nnAvailable && env.nnRenderOk (normalizeIconIdForNN iconId) then
    some (.nn (normalizeIconIdForNN iconId))
  else
    match normalizeLucideIcon iconId with
    | some name => some (.builtin name)
    | none => none

/-- A DOM element, restricted to the state the plugin reads and writes:
inline color (empty string means unset), the `data-frontmatter-color`
attribute, the `data-frontmatter-styled` marker set by the observers, the
`.frontmatter-icon` child containers in document order (each holding its
rendered content, `none` meaning an emptied container), and membership in
the applicator's `styledElements` weak set. -/
structure Elem where
  styleColor : String
  dataFrontmatterColor : Option String
  dataFrontmatterStyled : Bool
  iconChildren : List (Option RenderCall)
  inStyledSet : Bool
deriving DecidableEq, Repr

/-- An element with none of the plugin's markings. -/
def Elem.unstyled : Elem := ⟨"", none, false, [], false⟩

/-- `StyleApplicator.applyIcon` (`main.ts` lines 323–352): reuse the first
existing `.frontmatter-icon` child or create one as first child, empty it,
then render via the two-tier resolution. -/
def applyIcon (env : IconEnv) (e : Elem) (iconId : String) : Elem :=
  match e.iconChildren with
  | [] => { e with iconChildren := [iconRender env iconId] }
  | _ :: rest => { e with iconChildren := iconRender env iconId :: rest }

/-- `StyleApplicator.applyStyle` (`main.ts` lines 285–302): set the inline
color and record it when the cached color is truthy, apply the icon when
the cached icon is truthy, and mark the element styled when either was. -/
def applyStyle (env : IconEnv) (style : FileStyle) (e : Elem) : Elem :=
  let e1 :=
    if optTruthy style.color then
      { e with styleColor := optToStr style.color,
               dataFrontmatterColor := some (optToStr style.color) }
    else e
  let e2 :=
    if optTruthy style.icon then applyIcon env e1 (optToStr style.icon)
    else e1
  if optTruthy style.color || optTruthy style.icon then
    { e2 with inStyledSet := true }
  else e2

/-- `StyleApplicator.removeStyle` (`main.ts` lines 307–318): clear the
inline color, delete the recorded attribute, remove the first
`.frontmatter-icon` child if present, drop weak-set membership. -/
def removeStyle (e : Elem) : Elem :=
  { e with styleColor := "", dataFrontmatterColor := none,
           iconChildren := e.iconChildren.tail, inStyledSet := false }

/-- `applyStyle` together with its cache read (`main.ts` line 286): the
applicator reads the style for the path through the memoizing cache. -/
def applyStyleC (h : Host) (s : FrontmatterDecoratorSettings) (env : IconEnv)
    (c : CacheState) (e : Elem) (filePath : String) : Elem × CacheState :=
  let sc := c.getStyle h s filePath
  (applyStyle env sc.1 e, sc.2)

/-- The Notebook Navigator probe state of `StyleApplicator`
(`main.ts` lines 255–257): the recorded service instance and the
probed-already flag. -/
structure NNState where
  nnChecked : Bool
  notebookNavigator : Option Unit
deriving DecidableEq, Repr

/-- Probe state of a freshly constructed applicator. -/
def NNState.init : NNState := ⟨false, none⟩

/-- `StyleApplicator.getNotebookNavigator` (`main.ts` lines 266–280):
return the recorded result when already checked; otherwise consult the
host plugin registry once, record the outcome (positive or negative), and
return it.  The third component records whether the registry was
consulted by this call. -/
def getNotebookNavigator (registryHasNN : Bool) (st : NNState) :
    Option Unit × NNState × Bool :=
  if st.nnChecked then (st.notebookNavigator, st, false)
  else
    let nn : Option Unit := if registryHasNN then some () else none
    (nn, ⟨true, nn⟩, true)

/-- A sequence of `n` successive `getNotebookNavigator` calls: final probe
state and how many of the calls consulted the registry. -/
def runNNCalls (registryHasNN : Bool) : Nat → NNState → NNState × Nat
  | 0, st => (st, 0)
  | n + 1, st =>
    let r := getNotebookNavigator registryHasNN st
    let rest := runNNCalls registryHasNN n r.2.1
    (rest.1, (if r.2.2 then 1 else 0) + rest.2)

/-- JavaScript truthiness of an optional string attribute
(`if (element.dataset.path)` and similar guards). -/
def jsStr : Option String → Bool
  | some s => s ≠ ""
  | none => false

/-- The value of a truthy optional string. -/
def jsStrGet : Option String → String
  | some s => s
  | none => ""

/-- `linkText.replace(/^\[\[|\]\]$/g, "")`: remove a leading `[[` and a
trailing `]]`. -/
def stripBrackets (s : String) : String :=
  let s1 := if strStartsWith s "[[" then strDrop s 2 else s
  if strEndsWith s1 "]]" then strDropRight s1 2 else s1

/-- The link-cleaning pipeline shared by `BasesObserver.resolveFilePath`
(`main.ts` lines 1009–1011, 1025) and
`EditorLinksObserver.styleInternalLink` (lines 1094–1096): strip bracket
markers, drop the alias suffix after the first `|`, drop the
heading-anchor suffix after the first `#`. -/
def cleanLinkText (s : String) : String :=
  strTakeUntil (strTakeUntil (stripBrackets s) '|') '#'

/-- `if (!p.endsWith(".md")) p += ".md"`. -/
def withMdExtension (s : String) : String :=
  if strEndsWith s ".md" then s else s ++ ".md"

/-- `BasesObserver.resolveFilePath` (`main.ts` lines 1007–1033): clean the
link text, qualify with the markdown extension, try an exact vault lookup,
then fall back to the host link resolver (`getFirstLinkpathDest`) on the
cleaned, extension-free text.  `resolveLink` models the host resolver,
returning the path of the resolved `TFile` or nothing. -/
def basesResolveFilePath (h : Host) (resolveLink : String → Option String)
    (linkText : String) : Option String :=
  match getAbstractFileByPath h (withMdExtension (cleanLinkText linkText)) with
  | some (.tfile file) => some file.path
  | _ =>
    match resolveLink (cleanLinkText linkText) with
    | some p => some p
    | none => none

/-- `BacklinksObserver.resolveFilePath` (`main.ts` lines 877–897): qualify
with the markdown extension, try an exact vault lookup, then match the
base name against the markdown file set. -/
def backlinksResolveFilePath (h : Host) (text : String) : Option String :=
  let text1 := withMdExtension text
  match getAbstractFileByPath h text1 with
  | some (.tfile file) => some file.path
  | _ =>
    let basename :=
      if strEndsWith text1 ".md" then strDropRight text1 3 else text1
    match (getMarkdownFiles h).find? (fun f => f.basename = basename) with
    | some f => some f.path
    | none => none

/-- The extract of the editor-link resolution
(`EditorLinksObserver.styleInternalLink`, `main.ts` lines 1094–1102):
clean the link target, then hand it to the host link resolver. -/
def editorLinkResolve (resolveLink : String → Option String)
    (linkTarget : String) : Option String :=
  resolveLink (cleanLinkText linkTarget)

/-- A suggestion row as seen by `SuggesterObserver.styleSuggestionItem`:
the `data-frontmatter-styled` marker on the row, its `data-path`
attribute, the `.suggestion-title` child element, and that child's text
content. -/
structure SuggestionItem where
  frontmatterStyled : Bool
  dataPath : Option String
  titleEl : Option Elem
  titleText : String
deriving Repr

/-- The path-resolution chain of `SuggesterObserver.styleSuggestionItem`
(`main.ts` lines 735–766): the `data-path` attribute first; else treat the
trimmed title text as a candidate path (markdown extension appended when
missing) and verify it in the vault; else match the markdown file set by
base name or full candidate path. -/
def suggesterResolvePath (h : Host) (item : SuggestionItem) : Option String :=
  if jsStr item.dataPath then some (jsStrGet item.dataPath)
  else if item.titleText ≠ "" then
    let titleText := strTrim item.titleText
    let possiblePath := withMdExtension titleText
    match getAbstractFileByPath h possiblePath with
    | some (.tfile file) => some file.path
    | _ =>
      match (getMarkdownFiles h).find?
          (fun f => f.basename = titleText || f.path = possiblePath) with
      | some f => some f.path
      | none => none
  else none

/-- `SuggesterObserver.styleSuggestionItem` (`main.ts` lines 725–775):
return immediately when the row carries the styled marker; otherwise
resolve a path and, on success, set the marker on the row and apply full
styling to the title element through the cache.  The third component
lists the paths read from the style cache by this call. -/
def styleSuggestionItem (h : Host) (s : FrontmatterDecoratorSettings)
    (env : IconEnv) (c : CacheState) (item : SuggestionItem) :
    SuggestionItem × CacheState × List String :=
  if item.frontmatterStyled then (item, c, [])
  else
    match item.titleEl with
    | none => (item, c, [])
    | some titleEl =>
      match suggesterResolvePath h item with
      | some fp =>
        let sc := c.getStyle h s fp
        ({ item with frontmatterStyled := true,
                     titleEl := some (applyStyle env sc.1 titleEl) },
         sc.2, [fp])
      | none => (item, c, [])

/-- A backlink row as seen by `BacklinksObserver.styleBacklinkItem`: the
element itself (marker and styling live on it), its `data-path`
attribute, the `data-path` of the nearest ancestor carrying one
(`element.closest("[data-path]")`), and its text content. -/
structure BacklinkItem where
  el : Elem
  dataPath : Option String
  ancestorDataPath : Option String
  textContent : String
deriving Repr

/-- `BacklinksObserver.styleBacklinkItem` (`main.ts` lines 844–875):
return immediately when the element carries the styled marker; otherwise
resolve via `data-path`, the nearest ancestor's `data-path`, or the
trimmed text content, and on success mark the element and apply styling
to it through the cache. -/
def styleBacklinkItem (h : Host) (s : FrontmatterDecoratorSettings)
    (env : IconEnv) (c : CacheState) (item : BacklinkItem) :
    BacklinkItem × CacheState × List String :=
  if item.el.dataFrontmatterStyled then (item, c, [])
  else
    let fp0 : Option String :=
      if jsStr item.dataPath then some (jsStrGet item.dataPath)
      else if jsStr item.ancestorDataPath then
        some (jsStrGet item.ancestorDataPath)
      else none
    let fp : Option String :=
      match fp0 with
      | some p => some p
      | none =>
        let text := strTrim item.textContent
        if text ≠ "" then backlinksResolveFilePath h text else none
    match fp with
    | some p =>
      let sc := c.getStyle h s p
      ({ item with el :=
           { applyStyle env sc.1 item.el with dataFrontmatterStyled := true } },
       sc.2, [p])
    | none => (item, c, [])

/-- A Bases link cell as seen by `BasesObserver.styleBasesLink`: the
element itself, its `data-path` attribute, its `href` attribute, and its
text content. -/
structure BasesLinkItem where
  el : Elem
  dataPath : Option String
  href : Option String
  textContent : String
deriving Repr

/-- `BasesObserver.styleBasesLink` (`main.ts` lines 976–1005): return
immediately when the element carries the styled marker; otherwise resolve
via `data-path`, the cleaned `href`, or the cleaned trimmed text content,
and on success mark the element and apply styling to it through the
cache. -/
def styleBasesLink (h : Host) (s : FrontmatterDecoratorSettings)
    (env : IconEnv) (resolveLink : String → Option String) (c : CacheState)
    (item : BasesLinkItem) : BasesLinkItem × CacheState × List String :=
  if item.el.dataFrontmatterStyled then (item, c, [])
  else
    let fp : Option String :=
      if jsStr item.dataPath then some (jsStrGet item.dataPath)
      else if jsStr item.href then
        basesResolveFilePath h resolveLink (jsStrGet item.href)
      else if item.textContent ≠ "" then
        basesResolveFilePath h resolveLink (strTrim item.textContent)
      else none
    match fp with
    | some p =>
      let sc := c.getStyle h s p
      ({ item with el :=
           { applyStyle env sc.1 item.el with dataFrontmatterStyled := true } },
       sc.2, [p])
    | none => (item, c, [])

/-- The orchestrator state the host event handlers touch: the style cache
and, for each active observer, how many times its `refresh()` has been
triggered. -/
structure PluginState where
  cache : CacheState
  observerRefreshCounts : List Nat
deriving Repr

/-- `FrontmatterDecoratorPlugin.refreshAllObservers` (`main.ts` lines
1273–1275): trigger `refresh()` on every active observer. -/
def refreshAllObservers (s : PluginState) : PluginState :=
  { s with observerRefreshCounts := s.observerRefreshCounts.map (· + 1) }

/-- The `metadataCache.on("changed")` handler (`main.ts` lines 1134–1141):
for a `TFile`, invalidate its cache entry and refresh all observers. -/
def handleMetadataChanged (s : PluginState) (f : AbstractFile) : PluginState :=
  match f with
  | .tfile file =>
    refreshAllObservers { s with cache := s.cache.invalidate file.path }
  | .tfolder _ => s

/-- The `vault.on("rename")` handler (`main.ts` lines 1144–1152): for a
`TFile`, invalidate the old path's entry and the new path's entry, then
refresh all observers. -/
def handleRename (s : PluginState) (f : AbstractFile) (oldPath : String) :
    PluginState :=
  match f with
  | .tfile file =>
    refreshAllObservers
      { s with cache := (s.cache.invalidate oldPath).invalidate file.path }
  | .tfolder _ => s

/-- The `vault.on("delete")` handler (`main.ts` lines 1155–1161): for a
`TFile`, invalidate its cache entry.  No observer refresh is triggered. -/
def handleDelete (s : PluginState) (f : AbstractFile) : PluginState :=
  match f with
  | .tfile file => { s with cache := s.cache.invalidate file.path }
  | .tfolder _ => s

/-- The six observer classes. -/
inductive ObserverKind where
  | fileExplorer
  | tabHeader
  | suggester
  | backlinks
  | bases
  | editorLinks
deriving DecidableEq, Repr

/-- `FrontmatterDecoratorPlugin.startObservers` (`main.ts` lines
1219–1259): which observers are constructed and started for a given
settings object, in order.  The single suggester observer serves both the
quick switcher and the link suggester and starts when either flag is
set. -/
def startObservers (s : FrontmatterDecoratorSettings) : List ObserverKind :=
  (if s.enableFileExplorer then [ObserverKind.fileExplorer] else []) ++
  (if s.enableTabHeader then [ObserverKind.tabHeader] else []) ++
  (if s.enableQuickSwitcher || s.enableSuggester then [ObserverKind.suggester]
   else []) ++
  (if s.enableBacklinks then [ObserverKind.backlinks] else []) ++
  (if s.enableBases then [ObserverKind.bases] else []) ++
  (if s.enableEditorLinks then [ObserverKind.editorLinks] else [])

/-- Field projection as the (amended) specification words it: the value
when the field is present and non-null, otherwise null. -/
def projectField (fm : Frontmatter) (field : String) : Option FmValue :=
  (fm.lookup field).bind id

/-- The cache computation as the amended specification words it: resolve
the path; unless it is a markdown file handle return `{null, null}`;
otherwise project the two configured field names, defaulting a field to
null when it is absent or holds null, and passing every other value
through unchanged. -/
def computeStyleSpec (h : Host) (s : FrontmatterDecoratorSettings)
    (filePath : String) : FileStyle :=
  match getAbstractFileByPath h filePath with
  | some (.tfile file) =>
    if file.extension = "md" then
      match h.frontmatter.lookup filePath with
      | some fm => ⟨projectField fm s.colorField, projectField fm s.iconField⟩
      | none => ⟨none, none⟩
    else ⟨none, none⟩
  | _ => ⟨none, none⟩

/-- Field projection as the original claim words it: default the field to
null whenever it is absent or holds a falsy value. -/
def projectFieldFalsy (fm : Frontmatter) (field : String) : Option FmValue :=
  match (fm.lookup field).bind id with
  | some v => if v.truthy then some v else none
  | none => none

/-- The cache computation as the original claim words it: like
`computeStyleSpec`, but with falsy values defaulted to null. -/
def computeStyleFalsy (h : Host) (s : FrontmatterDecoratorSettings)
    (filePath : String) : FileStyle :=
  match getAbstractFileByPath h filePath with
  | some (.tfile file) =>
    if file.extension = "md" then
      match h.frontmatter.lookup filePath with
      | some fm =>
        ⟨projectFieldFalsy fm s.colorField, projectFieldFalsy fm s.iconField⟩
      | none => ⟨none, none⟩
    else ⟨none, none⟩
  | _ => ⟨none, none⟩

/-- An icon environment with no Notebook Navigator available. -/
def noNNEnv : IconEnv := ⟨false, fun _ => false⟩

/-- The `Projects/Plan.md` file of the specification's scenarios. -/
def planFile : VaultFile := ⟨"Projects/Plan.md", "Plan", "md"⟩

/-- Host state before Scenario B: `Projects/Plan.md` carries
`color: "#0ea5e9"` and `icon: "list-todo"`. -/
def hostBefore : Host :=
  ⟨[.tfile planFile],
   [("Projects/Plan.md",
     [("color", some (.str "#0ea5e9")), ("icon", some (.str "list-todo"))])]⟩

/-- Host state after Scenario B's edit: the `color` entry is removed, the
`icon` entry is unchanged. -/
def hostAfter : Host :=
  ⟨[.tfile planFile],
   [("Projects/Plan.md", [("icon", some (.str "list-todo"))])]⟩

/-- The element of Scenario B after the initial styling refresh. -/
def scenarioBElemBefore : Elem :=
  applyStyle noNNEnv
    (CacheState.getStyle [] hostBefore DEFAULT_SETTINGS "Projects/Plan.md").1
    Elem.unstyled

/-- The style recomputed for `Projects/Plan.md` after the metadata-changed
handler invalidated its entry and the frontmatter lost its color. -/
def scenarioBStyleAfter : FileStyle × CacheState :=
  CacheState.getStyle
    (((CacheState.getStyle [] hostBefore DEFAULT_SETTINGS
        "Projects/Plan.md").2).invalidate "Projects/Plan.md")
    hostAfter DEFAULT_SETTINGS "Projects/Plan.md"

/-- The element of Scenario B after the post-invalidation refresh re-runs
`applyStyle` on it. -/
def scenarioBElemAfter : Elem :=
  applyStyle noNNEnv scenarioBStyleAfter.1 scenarioBElemBefore

/-- Settings with only the Quick Switcher surface enabled. -/
def qsOnlySettings : FrontmatterDecoratorSettings :=
  ⟨"color", "icon", false, false, true, false, false, false, false⟩

/-- Settings with only the link-suggester surface enabled. -/
def sgOnlySettings : FrontmatterDecoratorSettings :=
  ⟨"color", "icon", false, false, false, true, false, false, false⟩

/-- Host holding a single file `Notes/A.md` whose frontmatter color field
is the empty string (a falsy, non-null value). -/
def falsyHost : Host :=
  ⟨[.tfile ⟨"Notes/A.md", "A", "md"⟩],
   [("Notes/A.md", [("color", some (.str ""))])]⟩

/-- The `Notes/Todo.md` file of the path-cleaning property. -/
def todoFile : VaultFile := ⟨"Notes/Todo.md", "Todo", "md"⟩

/-- Host for the path-cleaning witness: the vault holds `Notes/Todo.md`. -/
def todoHost : Host := ⟨[.tfile todoFile], []⟩

/-- Link resolver for the path-cleaning witness: `Notes/Todo` and
`Notes/Todo.md` both resolve to the `Notes/Todo.md` file. -/
def todoResolver : String → Option String := fun s =>
  if s = "Notes/Todo" || s = "Notes/Todo.md" then some "Notes/Todo.md"
  else none

section Lemmas

/-- The entry just dropped by `invalidate` cannot be looked up. -/
theorem lookup_invalidate_self (c : CacheState) (p : String) :
    (CacheState.invalidate c p).lookup p = none := by
  induction c with
  | nil => rfl
  | cons hd tl ih =>
    by_cases hk : hd.1 = p
    · have hdrop : CacheState.invalidate (hd :: tl) p =
          CacheState.invalidate tl p := by
        simp [CacheState.invalidate, List.filter_cons, hk]
      rw [hdrop]
      exact ih
    · have hkeep : CacheState.invalidate (hd :: tl) p =
          hd :: CacheState.invalidate tl p := by
        simp [CacheState.invalidate, List.filter_cons, hk]
      rw [hkeep]
      simp only [List.lookup, beq_false_of_ne (Ne.symm hk)]
      exact ih

/-- `invalidate` leaves lookups of other keys unchanged. -/
theorem lookup_invalidate_ne (c : CacheState) (p q : String) (hpq : p ≠ q) :
    (CacheState.invalidate c q).lookup p = c.lookup p := by
  induction c with
  | nil => rfl
  | cons hd tl ih =>
    by_cases hk : hd.1 = q
    · have hdrop : CacheState.invalidate (hd :: tl) q =
          CacheState.invalidate tl q := by
        simp [CacheState.invalidate, List.filter_cons, hk]
      have hne : p ≠ hd.1 := fun hph => hpq (hk ▸ hph)
      rw [hdrop]
      simp only [List.lookup, beq_false_of_ne hne]
      exact ih
    · have hkeep : CacheState.invalidate (hd :: tl) q =
          hd :: CacheState.invalidate tl q := by
        simp [CacheState.invalidate, List.filter_cons, hk]
      rw [hkeep]
      by_cases hp : p = hd.1
      · subst hp
        simp only [List.lookup, beq_self_eq_true]
      · simp only [List.lookup, beq_false_of_ne hp]
        exact ih

/-- Reading the cache right after a read answers the same style from the
same cache: the miss was memoized. -/
theorem getStyle_getStyle (c : CacheState) (h : Host)
    (s : FrontmatterDecoratorSettings) (p : String) :
    ((c.getStyle h s p).2).getStyle h s p = c.getStyle h s p := by
  unfold CacheState.getStyle
  cases hl : c.lookup p with
  | some st => simp [hl]
  | none => simp [hl, List.lookup]

/-- One `applyIcon` absorbs an identical preceding one: the container is
reused and re-rendered to the same content. -/
theorem applyIcon_idem (env : IconEnv) (e : Elem) (i : String) :
    applyIcon env (applyIcon env e i) i = applyIcon env e i := by
  cases e with
  | mk sc dfc dfs ic iss => cases ic <;> simp [applyIcon]

/-- `applyStyle` is idempotent for a fixed style value. -/
theorem applyStyle_idem (env : IconEnv) (st : FileStyle) (e : Elem) :
    applyStyle env st (applyStyle env st e) = applyStyle env st e := by
  cases hc : optTruthy st.color <;> cases hi : optTruthy st.icon <;>
    cases e with
    | mk sc dfc dfs ic iss =>
      cases ic <;> simp [applyStyle, applyIcon, hc, hi]

/-- A run of probe calls starting from an already-checked state touches
the registry zero times and never changes the state. -/
theorem runNNCalls_checked (reg : Bool) (n : Nat) (st : NNState)
    (hst : st.nnChecked = true) :
    runNNCalls reg n st = (st, 0) := by
  induction n with
  | zero => rfl
  | succ n ih => simp [runNNCalls, getNotebookNavigator, hst, ih]

/-- `lookupFm` (the nullish coalescing of the source) agrees with the
spec-worded field projection. -/
theorem lookupFm_eq_projectField (fm : Frontmatter) (field : String) :
    lookupFm fm field = projectField fm field := by
  unfold lookupFm projectField
  cases fm.lookup field <;> rfl

end Lemmas

section Claims

/-- C1 (code bug): Scenario B evaluated on the code.  After the initial
refresh styles the element from `color: "#0ea5e9"`, the color frontmatter
is removed and the metadata-changed handling invalidates the cache entry,
so the recomputed style has no color — yet the next refresh, which re-runs
`applyStyle`, leaves the previously applied inline color `#0ea5e9` on the
element (the color branch of `applyStyle` only writes truthy colors, and
`removeStyle` is never invoked by any observer), while the element stays
marked styled.  The spec's claim that the refresh removes the inline
color, and the invariant that a styled element's color matches
`getStyle`, both fail here. -/
theorem scenarioB_staleColor :
    scenarioBStyleAfter.1.color = none ∧
    scenarioBElemBefore.styleColor = "#0ea5e9" ∧
    scenarioBElemAfter.styleColor = "#0ea5e9" ∧
    scenarioBElemAfter.inStyledSet = true ∧
    scenarioBElemAfter.iconChildren = [some (.builtin "lucide-list-todo")] := by
  decide

/-- C2 (confirmed): for every element, file path, icon environment and
fixed cache state, calling `applyStyle` twice yields a DOM state and cache
state identical to calling it once — the second call re-reads the
memoized style, re-sets the same inline color, reuses the single icon
container and re-renders it to the same content. -/
theorem applyStyle_twice_eq_once (h : Host) (s : FrontmatterDecoratorSettings)
    (env : IconEnv) (c : CacheState) (e : Elem) (p : String) :
    applyStyleC h s env (applyStyleC h s env c e p).2
      (applyStyleC h s env c e p).1 p = applyStyleC h s env c e p := by
  simp [applyStyleC, getStyle_getStyle, applyStyle_idem]

/-- C3 (counterexample): an element that carried the non-empty inline
color `red` before `applyStyle` is not restored bit-for-bit by
`removeStyle` — its inline color ends up as the empty string, not
`red`. -/
theorem applyRemove_not_restoring_color_cex :
    removeStyle (applyStyle noNNEnv ⟨some (.str "#0ea5e9"), none⟩
        { Elem.unstyled with styleColor := "red" }) ≠
      { Elem.unstyled with styleColor := "red" } := by
  decide

/-- C3 (amended): `applyStyle` followed by `removeStyle` leaves the
element unstyled — inline color string empty, no recorded color
attribute, no icon-container child, no weak-set membership — which equals
the pre-apply state bit-for-bit exactly when the element was unstyled
before the apply; a pre-existing non-empty inline color is cleared to
empty rather than restored. -/
theorem applyRemove_roundtrip_unstyled (env : IconEnv) (style : FileStyle)
    (e : Elem) (h1 : e.styleColor = "") (h2 : e.dataFrontmatterColor = none)
    (h3 : e.iconChildren = []) (h4 : e.inStyledSet = false) :
    removeStyle (applyStyle env style e) = e := by
  obtain ⟨sc, dfc, dfs, ic, iss⟩ := e
  simp only at h1 h2 h3 h4
  subst h1; subst h2; subst h3; subst h4
  cases hc : optTruthy style.color <;> cases hi : optTruthy style.icon <;>
    simp [applyStyle, applyIcon, removeStyle, hc, hi]

/-- Witness for the amended C3 round trip at a concrete unstyled element
and a concrete color-and-icon style. -/
theorem applyRemove_roundtrip_unstyled_witness :
    Elem.unstyled.styleColor = "" ∧
    Elem.unstyled.dataFrontmatterColor = none ∧
    Elem.unstyled.iconChildren = [] ∧
    Elem.unstyled.inStyledSet = false ∧
    removeStyle (applyStyle noNNEnv
      ⟨some (.str "#0ea5e9"), some (.str "list-todo")⟩ Elem.unstyled) =
      Elem.unstyled :=
  ⟨rfl, rfl, rfl, rfl,
   applyRemove_roundtrip_unstyled noNNEnv
     ⟨some (.str "#0ea5e9"), some (.str "list-todo")⟩ Elem.unstyled
     rfl rfl rfl rfl⟩

/-- C4 (counterexample): with one active observer, a delete event for the
markdown file `Projects/Plan.md` invalidates its cache entry but leaves
the observer's refresh count untouched, while a metadata-changed event
for the same file bumps it — the delete handler performs no global
refresh. -/
theorem deleteEvent_no_refresh_cex :
    (handleDelete
        ⟨[("Projects/Plan.md", ⟨some (.str "#0ea5e9"), none⟩)], [0]⟩
        (.tfile planFile)).observerRefreshCounts = [0] ∧
    (handleDelete
        ⟨[("Projects/Plan.md", ⟨some (.str "#0ea5e9"), none⟩)], [0]⟩
        (.tfile planFile)).cache = [] ∧
    (handleMetadataChanged
        ⟨[("Projects/Plan.md", ⟨some (.str "#0ea5e9"), none⟩)], [0]⟩
        (.tfile planFile)).observerRefreshCounts = [1] := by
  decide

/-- C4 (amended): a metadata-changed event for a markdown file invalidates
that file's cache entry and triggers `refresh()` on every active
observer; a rename invalidates both the old and the new path's entries
and triggers the global refresh; a delete only invalidates the file's
entry and triggers no refresh. -/
theorem hostEvents_invalidate_and_refresh (s : PluginState)
    (file : VaultFile) (oldPath : String) :
    ((handleMetadataChanged s (.tfile file)).cache.lookup file.path = none ∧
     (handleMetadataChanged s (.tfile file)).observerRefreshCounts =
       s.observerRefreshCounts.map (· + 1)) ∧
    ((handleRename s (.tfile file) oldPath).cache.lookup oldPath = none ∧
     (handleRename s (.tfile file) oldPath).cache.lookup file.path = none ∧
     (handleRename s (.tfile file) oldPath).observerRefreshCounts =
       s.observerRefreshCounts.map (· + 1)) ∧
    ((handleDelete s (.tfile file)).cache.lookup file.path = none ∧
     (handleDelete s (.tfile file)).observerRefreshCounts =
       s.observerRefreshCounts) := by
  refine ⟨⟨lookup_invalidate_self _ _, rfl⟩,
          ⟨?_, lookup_invalidate_self _ _, rfl⟩,
          ⟨lookup_invalidate_self _ _, rfl⟩⟩
  by_cases hop : oldPath = file.path
  · rw [show (handleRename s (.tfile file) oldPath).cache =
        (s.cache.invalidate oldPath).invalidate file.path from rfl, hop]
    exact lookup_invalidate_self _ _
  · rw [show (handleRename s (.tfile file) oldPath).cache =
        (s.cache.invalidate oldPath).invalidate file.path from rfl,
      lookup_invalidate_ne _ _ _ hop]
    exact lookup_invalidate_self _ _

/-- C5 (counterexample): a frontmatter color field holding the empty
string — a falsy but non-null value — passes through the cache
computation unchanged instead of defaulting to null as the claim
states. -/
theorem computeStyle_falsy_passthrough_cex :
    computeStyle falsyHost DEFAULT_SETTINGS "Notes/A.md" =
      ⟨some (.str ""), none⟩ ∧
    computeStyleFalsy falsyHost DEFAULT_SETTINGS "Notes/A.md" =
      ⟨none, none⟩ ∧
    computeStyle falsyHost DEFAULT_SETTINGS "Notes/A.md" ≠
      computeStyleFalsy falsyHost DEFAULT_SETTINGS "Notes/A.md" := by
  decide

/-- C5 (amended): for every host state, settings and path, the cache's
first-call computation returns `{null, null}` when the path does not
resolve to a markdown file handle, and otherwise projects the two
configured field names out of the frontmatter mapping, defaulting a field
to null exactly when it is absent or holds null — falsy non-null values
such as the empty string pass through. -/
theorem computeStyle_eq_nullishSpec (h : Host)
    (s : FrontmatterDecoratorSettings) (p : String) :
    computeStyle h s p = computeStyleSpec h s p ∧
    (CacheState.getStyle [] h s p).1 = computeStyleSpec h s p := by
  have main : computeStyle h s p = computeStyleSpec h s p := by
    unfold computeStyle computeStyleSpec
    cases hf : getAbstractFileByPath h p with
    | none => rfl
    | some af =>
      cases af with
      | tfolder q => rfl
      | tfile file =>
        by_cases hx : file.extension = "md"
        · simp only [hx, ne_eq, not_true_eq_false, if_false, if_true]
          cases hm : h.frontmatter.lookup p with
          | none => rfl
          | some fm => simp [lookupFm_eq_projectField]
        · simp [hx]
  exact ⟨main, main⟩

/-- Witness for the amended C5 cache computation at a concrete host: the
markdown-handle miss and the projection case both evaluate as stated. -/
theorem computeStyle_eq_nullishSpec_witness :
    computeStyle hostBefore DEFAULT_SETTINGS "Projects/Plan.md" =
      computeStyleSpec hostBefore DEFAULT_SETTINGS "Projects/Plan.md" :=
  (computeStyle_eq_nullishSpec hostBefore DEFAULT_SETTINGS
    "Projects/Plan.md").1

/-- C6 (confirmed): the icon identifier normalizations and the resulting
render calls — `list-todo` leads to a builtin render call with
`lucide-list-todo`; with the third-party service available,
`phosphor:ph-bridge` leads to a namespaced render call with
`phosphor:bridge` and `simple-icons:si-github` to one with
`simple-icons:github`; `unknown-ns:foo` with no third-party service
produces no render call at all. -/
theorem iconNormalization_renderCalls :
    normalizeLucideIcon "list-todo" = some "lucide-list-todo" ∧
    normalizeIconIdForNN "phosphor:ph-bridge" = "phosphor:bridge" ∧
    normalizeIconIdForNN "simple-icons:si-github" = "simple-icons:github" ∧
    iconRender noNNEnv "list-todo" = some (.builtin "lucide-list-todo") ∧
    iconRender ⟨true, fun _ => true⟩ "phosphor:ph-bridge" =
      some (.nn "phosphor:bridge") ∧
    iconRender ⟨true, fun _ => true⟩ "simple-icons:si-github" =
      some (.nn "simple-icons:github") ∧
    iconRender noNNEnv "unknown-ns:foo" = none := by
  decide

/-- C7 (confirmed): for a host whose vault holds `Notes/Todo.md` and whose
link resolver treats `Notes/Todo` and `Notes/Todo.md` alike, the raw link
`[[Notes/Todo|Display]]#Heading` cleans to `Notes/Todo`, qualifies to
`Notes/Todo.md`, and resolves to the same file as the plain path
`Notes/Todo.md` in both the bases-view and editor-link resolution
paths. -/
theorem linkCleaning_resolution (h : Host) (r : String → Option String)
    (hv : getAbstractFileByPath h "Notes/Todo.md" = some (.tfile todoFile))
    (hr : r "Notes/Todo" = r "Notes/Todo.md") :
    cleanLinkText "[[Notes/Todo|Display]]#Heading" = "Notes/Todo" ∧
    withMdExtension (cleanLinkText "[[Notes/Todo|Display]]#Heading") =
      "Notes/Todo.md" ∧
    basesResolveFilePath h r "[[Notes/Todo|Display]]#Heading" =
      some "Notes/Todo.md" ∧
    basesResolveFilePath h r "Notes/Todo.md" = some "Notes/Todo.md" ∧
    editorLinkResolve r "[[Notes/Todo|Display]]#Heading" =
      editorLinkResolve r "Notes/Todo.md" := by
  have hclean : cleanLinkText "[[Notes/Todo|Display]]#Heading" =
      "Notes/Todo" := by decide
  have hcleanPlain : cleanLinkText "Notes/Todo.md" = "Notes/Todo.md" := by
    decide
  have hext : withMdExtension "Notes/Todo" = "Notes/Todo.md" := by decide
  have hextPlain : withMdExtension "Notes/Todo.md" = "Notes/Todo.md" := by
    decide
  refine ⟨hclean, by rw [hclean]; exact hext, ?_, ?_, ?_⟩
  · simp [basesResolveFilePath, hclean, hext, hv, todoFile]
  · simp [basesResolveFilePath, hcleanPlain, hextPlain, hv, todoFile]
  · simp [editorLinkResolve, hclean, hcleanPlain, hr]

/-- Witness for the link-cleaning theorem at a concrete vault and a
concrete resolver. -/
theorem linkCleaning_resolution_witness :
    getAbstractFileByPath todoHost "Notes/Todo.md" =
      some (.tfile todoFile) ∧
    todoResolver "Notes/Todo" = todoResolver "Notes/Todo.md" ∧
    basesResolveFilePath todoHost todoResolver
      "[[Notes/Todo|Display]]#Heading" = some "Notes/Todo.md" :=
  ⟨by decide, by decide,
   (linkCleaning_resolution todoHost todoResolver (by decide)
     (by decide)).2.2.1⟩

/-- C8 (confirmed): for the suggester, backlinks and bases observers, once
an element carries the styled marker, the per-element styling routine
returns it unchanged, leaves the cache unchanged, and reads no path from
the cache — regardless of the cache state, so also after invalidations or
the refresh-all-styles command. -/
theorem markedElements_skipped (h : Host) (s : FrontmatterDecoratorSettings)
    (env : IconEnv) (r : String → Option String) (c : CacheState)
    (sIt : SuggestionItem) (bIt : BacklinkItem) (baIt : BasesLinkItem)
    (hs : sIt.frontmatterStyled = true)
    (hb : bIt.el.dataFrontmatterStyled = true)
    (hba : baIt.el.dataFrontmatterStyled = true) :
    styleSuggestionItem h s env c sIt = (sIt, c, []) ∧
    styleBacklinkItem h s env c bIt = (bIt, c, []) ∧
    styleBasesLink h s env r c baIt = (baIt, c, []) := by
  simp [styleSuggestionItem, styleBacklinkItem, styleBasesLink, hs, hb, hba]

/-- A marked suggestion row. -/
def markedSuggestion : SuggestionItem := ⟨true, none, some Elem.unstyled, "Plan"⟩

/-- A marked backlink row. -/
def markedBacklink : BacklinkItem :=
  ⟨{ Elem.unstyled with dataFrontmatterStyled := true }, none, none, "Plan"⟩

/-- A marked bases link cell. -/
def markedBasesLink : BasesLinkItem :=
  ⟨{ Elem.unstyled with dataFrontmatterStyled := true }, none, none, "Plan"⟩

/-- Witness for the marked-element skip at concrete marked rows of all
three observers. -/
theorem markedElements_skipped_witness :
    markedSuggestion.frontmatterStyled = true ∧
    markedBacklink.el.dataFrontmatterStyled = true ∧
    markedBasesLink.el.dataFrontmatterStyled = true ∧
    styleSuggestionItem hostBefore DEFAULT_SETTINGS noNNEnv []
      markedSuggestion = (markedSuggestion, [], []) ∧
    styleBacklinkItem hostBefore DEFAULT_SETTINGS noNNEnv []
      markedBacklink = (markedBacklink, [], []) ∧
    styleBasesLink hostBefore DEFAULT_SETTINGS noNNEnv todoResolver []
      markedBasesLink = (markedBasesLink, [], []) := by
  have h := markedElements_skipped hostBefore DEFAULT_SETTINGS noNNEnv
    todoResolver [] markedSuggestion markedBacklink markedBasesLink
    rfl rfl rfl
  exact ⟨rfl, rfl, rfl, h.1, h.2.1, h.2.2⟩

/-- C9 (confirmed): the third-party icon service is probed at most once
per session.  A call on an already-checked state answers the recorded
result without consulting the registry; any run of calls from a checked
state consults the registry zero times; any run of one or more calls from
the fresh state consults it exactly once; and a negative first probe is
cached — the second call still answers nothing without consulting the
registry. -/
theorem nnProbe_at_most_once (reg : Bool) (n : Nat) (st : NNState)
    (hst : st.nnChecked = true) :
    getNotebookNavigator reg st = (st.notebookNavigator, st, false) ∧
    (runNNCalls reg n st).2 = 0 ∧
    (runNNCalls reg (n + 1) NNState.init).2 = 1 ∧
    (getNotebookNavigator false
      ((getNotebookNavigator false NNState.init).2.1)).1 = none := by
  have hfirst : getNotebookNavigator reg NNState.init =
      ((if reg then some () else none),
       ⟨true, if reg then some () else none⟩, true) := by
    simp [getNotebookNavigator, NNState.init]
  have hrest : runNNCalls reg n
      ⟨true, if reg then some () else none⟩ =
      (⟨true, if reg then some () else none⟩, 0) :=
    runNNCalls_checked reg n _ rfl
  refine ⟨by simp [getNotebookNavigator, hst], ?_, ?_, by decide⟩
  · rw [runNNCalls_checked reg n st hst]
  · simp [runNNCalls, hfirst, hrest]

/-- Witness for the probe-at-most-once theorem: a checked state with a
negative recorded probe, six calls from the fresh state with an absent
registry entry. -/
theorem nnProbe_at_most_once_witness :
    (⟨true, none⟩ : NNState).nnChecked = true ∧
    getNotebookNavigator false ⟨true, none⟩ = (none, ⟨true, none⟩, false) ∧
    (runNNCalls false (5 + 1) NNState.init).2 = 1 := by
  have h := nnProbe_at_most_once false 5 ⟨true, none⟩ rfl
  exact ⟨rfl, h.1, h.2.2.1⟩

/-- C10 (counterexample): the settings carry seven enable flags, not six,
and the single suggester observer is controlled by two of them — it
starts when only the quick-switcher flag is set and also when only the
link-suggester flag is set, so no single per-surface flag governs it. -/
theorem suggesterObserver_two_flags_cex :
    qsOnlySettings.enableSuggester = false ∧
    ObserverKind.suggester ∈ startObservers qsOnlySettings ∧
    sgOnlySettings.enableQuickSwitcher = false ∧
    ObserverKind.suggester ∈ startObservers sgOnlySettings := by
  decide

/-- C10 (amended): the settings object carries seven boolean enable flags;
at observer startup the quick-switcher and link-suggester flags jointly
control the single suggester observer, which starts if and only if either
is true, while each of the other five observers starts if and only if its
own flag is true. -/
theorem startObservers_membership (s : FrontmatterDecoratorSettings) :
    (ObserverKind.fileExplorer ∈ startObservers s ↔
      s.enableFileExplorer = true) ∧
    (ObserverKind.tabHeader ∈ startObservers s ↔
      s.enableTabHeader = true) ∧
    (ObserverKind.suggester ∈ startObservers s ↔
      (s.enableQuickSwitcher = true ∨ s.enableSuggester = true)) ∧
    (ObserverKind.backlinks ∈ startObservers s ↔
      s.enableBacklinks = true) ∧
    (ObserverKind.bases ∈ startObservers s ↔ s.enableBases = true) ∧
    (ObserverKind.editorLinks ∈ startObservers s ↔
      s.enableEditorLinks = true) := by
  obtain ⟨cf, icf, b1, b2, b3, b4, b5, b6, b7⟩ := s
  cases b1 <;> cases b2 <;> cases b3 <;> cases b4 <;> cases b5 <;>
    cases b6 <;> cases b7 <;> simp [startObservers]

end Claims

end FrontmatterDecorator
